import Mathlib

/-!
Verification of the Merkle node encoding layer of Paprika
(src/Paprika/prototype/merkle_node.c).

The C file declares `typedef char byte` and uses it as a raw 8-bit byte;
we model a byte as a `Nat` reduced `% 256` wherever the C code stores into
a byte-sized field. A C buffer `(byte *p, int n)` is modelled as a
`List Nat` of its byte values together with the length argument. The
struct `MerkleNode` is returned by value in C, so it is a plain Lean
structure; the heap (malloc / memcpy) is modelled explicitly where a claim
is about memory (see `Heap` below).
-/

namespace Paprika

/-- C enum `NodeType` from merkle_node.c: `Leaf`, `Extension`, `Branch`
with the default values 0, 1, 2. -/
inductive NodeType where
  | Leaf
  | Extension
  | Branch
deriving DecidableEq, Repr

/-- Numeric value of an enum member, as C assigns them. -/
def NodeType.toNat : NodeType → Nat
  | .Leaf => 0
  | .Extension => 1
  | .Branch => 2

instance : Fintype NodeType :=
  ⟨⟨{NodeType.Leaf, NodeType.Extension, NodeType.Branch}, by decide⟩,
    fun t => by cases t <;> decide⟩

/-- `const byte IsDirtyFlag = 0b1000`. -/
def IsDirtyFlag : Nat := 8

/-- `const byte NodeTypeFlag = 0b0110`. -/
def NodeTypeFlag : Nat := 6

/-- `struct MerkleNode`. `Header` and `Length` are byte fields (values
below 256 by construction); `Keccak` is the 32-byte array; `Data` holds
the bytes of the malloc-ed payload buffer. -/
structure MerkleNode where
  Header : Nat
  Keccak : List Nat
  Length : Nat
  Data : List Nat
deriving DecidableEq, Repr

/-- `bool MerkleNode_IsDirty(MerkleNode node)`:
`(node.Header & IsDirtyFlag) != 0`. -/
def MerkleNode_IsDirty (node : MerkleNode) : Bool :=
  (node.Header &&& IsDirtyFlag) != 0

/-- `NodeType MerkleNode_NodeType(MerkleNode node)`:
`(NodeType)((node.Header & NodeTypeFlag) >> 1)`. The C cast back to the
enum is value-preserving, so we return the numeric value; 0, 1, 2 are the
values of the enum members `Leaf`, `Extension`, `Branch`, while 3 is a
value no enum member carries. -/
def MerkleNode_NodeType (node : MerkleNode) : Nat :=
  (node.Header &&& NodeTypeFlag) >>> 1

/-- Header byte written by the constructors:
`(byte)type << 1 | IsDirtyFlag` when the dirty flag is set, `type << 1`
otherwise, stored into the byte-sized `Header` field. -/
def HeaderPack (t : NodeType) (d : Bool) : Nat :=
  ((t.toNat <<< 1) ||| (if d then IsDirtyFlag else 0)) % 256

/-- `MerkleNode MerkleNode_newBranch(byte *nibbles)`: header
`(byte)Branch << 1 | IsDirtyFlag`, Keccak memset to 0, `Length = 2`,
`Data = malloc(2)` filled by `memcpy(Data, nibbles, 2)` — the first two
bytes of the caller's buffer. -/
def MerkleNode_newBranch (nibbles : List Nat) : MerkleNode :=
  { Header := ((NodeType.toNat .Branch <<< 1) ||| IsDirtyFlag) % 256
    Keccak := List.replicate 32 0
    Length := 2
    Data := nibbles.take 2 }

/-- `MerkleNode MerkleNode_newExtension(byte *nibblePath, int pathLength)`:
header `(byte)Extension << 1 | IsDirtyFlag`, Keccak memset to 0,
`Length = pathLength` stored into a byte field (hence `% 256`), and
`memcpy(Data, nibblePath, Length)` copying `Length` bytes of the caller's
buffer into the fresh `malloc(Length)` buffer. -/
def MerkleNode_newExtension (nibblePath : List Nat) (pathLength : Nat) :
    MerkleNode :=
  { Header := ((NodeType.toNat .Extension <<< 1) ||| IsDirtyFlag) % 256
    Keccak := List.replicate 32 0
    Length := pathLength % 256
    Data := nibblePath.take (pathLength % 256) }

/-- `MerkleNode MerkleNode_newLeaf(byte *nibblePath, int pathLength)`:
identical to `MerkleNode_newExtension` except for the `Leaf` type tag. -/
def MerkleNode_newLeaf (nibblePath : List Nat) (pathLength : Nat) :
    MerkleNode :=
  { Header := ((NodeType.toNat .Leaf <<< 1) ||| IsDirtyFlag) % 256
    Keccak := List.replicate 32 0
    Length := pathLength % 256
    Data := nibblePath.take (pathLength % 256) }

/-- C1: packing any of the three node types together with either dirty
flag value into a header byte, as the constructors do, and reading the
header back with `MerkleNode_NodeType` and `MerkleNode_IsDirty` recovers
the original type value and dirty flag. -/
theorem header_roundtrip (t : NodeType) (d : Bool) :
    MerkleNode_NodeType ⟨HeaderPack t d, [], 0, []⟩ = t.toNat ∧
    MerkleNode_IsDirty ⟨HeaderPack t d, [], 0, []⟩ = d := by
  cases t <;> cases d <;> constructor <;> rfl

set_option maxRecDepth 10000 in
/-- C2: on every header byte, `MerkleNode_IsDirty` reads exactly bit 3 and
`MerkleNode_NodeType` reads exactly bits 1 and 2 (the value of the two
bits above bit 0); both ignore bit 0, and `HeaderPack` never sets bit 0. -/
theorem header_bit_layout :
    (∀ h : Fin 256,
      MerkleNode_IsDirty ⟨h.val, [], 0, []⟩ = h.val.testBit 3 ∧
      MerkleNode_NodeType ⟨h.val, [], 0, []⟩ = (h.val >>> 1) % 4 ∧
      MerkleNode_IsDirty ⟨h.val ||| 1, [], 0, []⟩ =
        MerkleNode_IsDirty ⟨h.val, [], 0, []⟩ ∧
      MerkleNode_NodeType ⟨h.val ||| 1, [], 0, []⟩ =
        MerkleNode_NodeType ⟨h.val, [], 0, []⟩) ∧
    (∀ (t : NodeType) (d : Bool), HeaderPack t d % 2 = 0) := by
  constructor
  · decide
  · intro t d
    cases t <;> cases d <;> rfl

/-- C3: on a header whose type-tag field holds the reserved value 3 (for
instance the byte `0b0110`), `MerkleNode_NodeType` does not fail: it
returns the raw value 3, which is the value of no member of the C enum
`NodeType`. The code therefore diverges from the claimed `InvalidEncoding`
failure, which the spec itself flags as a prototype defect. -/
theorem nodeType_tag_three_out_of_range :
    MerkleNode_NodeType ⟨6, [], 0, []⟩ = 3 ∧
    ∀ t : NodeType, t.toNat ≠ 3 := by
  constructor
  · rfl
  · intro t
    cases t <;> decide

/-- C4: each of the three constructors sets `IsDirtyFlag` in the header,
so `MerkleNode_IsDirty` is true immediately after construction, for every
input. -/
theorem constructors_always_dirty (nibblePath nibbles : List Nat)
    (pathLength : Nat) :
    MerkleNode_IsDirty (MerkleNode_newLeaf nibblePath pathLength) = true ∧
    MerkleNode_IsDirty (MerkleNode_newExtension nibblePath pathLength) = true ∧
    MerkleNode_IsDirty (MerkleNode_newBranch nibbles) = true := by
  refine ⟨?_, ?_, ?_⟩ <;>
    simp [MerkleNode_IsDirty, MerkleNode_newLeaf, MerkleNode_newExtension,
      MerkleNode_newBranch, IsDirtyFlag, NodeType.toNat]

/-- C5: for every node built by a constructor from a valid buffer (one at
least as long as the declared length), the stored `Length` field equals
the byte length of the allocated-and-filled `Data` buffer. -/
theorem length_matches_payload :
    (∀ (p : List Nat) (n : Nat), n ≤ p.length →
      (MerkleNode_newLeaf p n).Length =
        (MerkleNode_newLeaf p n).Data.length) ∧
    (∀ (p : List Nat) (n : Nat), n ≤ p.length →
      (MerkleNode_newExtension p n).Length =
        (MerkleNode_newExtension p n).Data.length) ∧
    (∀ b : List Nat, 2 ≤ b.length →
      (MerkleNode_newBranch b).Length =
        (MerkleNode_newBranch b).Data.length) := by
  refine ⟨?_, ?_, ?_⟩
  · intro p n hn
    simp only [MerkleNode_newLeaf]
    rw [List.length_take]
    omega
  · intro p n hn
    simp only [MerkleNode_newExtension]
    rw [List.length_take]
    omega
  · intro b hb
    simp only [MerkleNode_newBranch]
    rw [List.length_take]
    omega

/-- Witness for `length_matches_payload` at concrete buffers. -/
theorem length_matches_payload_witness :
    (MerkleNode_newLeaf [1, 2, 3] 3).Length =
      (MerkleNode_newLeaf [1, 2, 3] 3).Data.length ∧
    (MerkleNode_newExtension [4, 5] 2).Length =
      (MerkleNode_newExtension [4, 5] 2).Data.length ∧
    (MerkleNode_newBranch [6, 7]).Length =
      (MerkleNode_newBranch [6, 7]).Data.length :=
  ⟨length_matches_payload.1 [1, 2, 3] 3 (by decide),
   length_matches_payload.2.1 [4, 5] 2 (by decide),
   length_matches_payload.2.2 [6, 7] (by decide)⟩

/-- C6: at the boundary, `MerkleNode_newLeaf` on a 255-byte path succeeds
with payload length 255, but on a 256-byte path it does not fail with
`PayloadTooLarge`: the length is stored into a byte field, wraps to 0, and
the node is returned with an empty (truncated) payload. -/
theorem newLeaf_length_boundary :
    (MerkleNode_newLeaf (List.replicate 255 1) 255).Length = 255 ∧
    (MerkleNode_newLeaf (List.replicate 255 1) 255).Data.length = 255 ∧
    (MerkleNode_newLeaf (List.replicate 256 1) 256).Length = 0 ∧
    (MerkleNode_newLeaf (List.replicate 256 1) 256).Data = [] := by
  refine ⟨rfl, ?_, rfl, rfl⟩
  simp only [MerkleNode_newLeaf]
  rw [List.length_take, List.length_replicate]
  omega

/-- C7: `MerkleNode_newExtension` on the empty path does not fail with an
`EmptyPathError`: it returns a fully formed dirty Extension node with an
empty payload. -/
theorem newExtension_empty_path_returns_node :
    MerkleNode_newExtension [] 0 = ⟨10, List.replicate 32 0, 0, []⟩ ∧
    MerkleNode_IsDirty (MerkleNode_newExtension [] 0) = true ∧
    MerkleNode_NodeType (MerkleNode_newExtension [] 0) =
      NodeType.toNat .Extension :=
  ⟨rfl, rfl, rfl⟩

/-- C8: for every caller-supplied bitmap buffer of at least two bytes,
`MerkleNode_newBranch` returns a node whose stored length is 2, whose
payload holds exactly 2 bytes, and whose payload bytes are the first two
bytes of the caller's buffer. -/
theorem newBranch_payload (nibbles : List Nat) (h : 2 ≤ nibbles.length) :
    (MerkleNode_newBranch nibbles).Length = 2 ∧
    (MerkleNode_newBranch nibbles).Data.length = 2 ∧
    ∀ i, i < 2 →
      (MerkleNode_newBranch nibbles).Data.getD i 0 = nibbles.getD i 0 := by
  cases nibbles with
  | nil => simp at h
  | cons a t =>
    cases t with
    | nil => simp at h
    | cons b r =>
      refine ⟨rfl, rfl, ?_⟩
      intro i hi
      interval_cases i <;> rfl

/-- Witness for `newBranch_payload` on a concrete three-byte buffer. -/
theorem newBranch_payload_witness :
    (MerkleNode_newBranch [9, 4, 7]).Length = 2 ∧
    (MerkleNode_newBranch [9, 4, 7]).Data.length = 2 ∧
    ∀ i, i < 2 →
      (MerkleNode_newBranch [9, 4, 7]).Data.getD i 0 =
        [9, 4, 7].getD i 0 :=
  newBranch_payload [9, 4, 7] (by decide)

/-- C9: the type tag read back from a freshly constructed node names the
constructor that built it (Leaf, Extension, Branch respectively), for
every input. The layer's only other operations, `MerkleNode_IsDirty` and
`MerkleNode_NodeType`, are pure accessors returning a flag or a tag — no
operation of the layer returns a modified node, so the tag fixed here is
the node's type for its whole lifetime. -/
theorem nodeType_fixed_at_construction (nibblePath nibbles : List Nat)
    (pathLength : Nat) :
    MerkleNode_NodeType (MerkleNode_newLeaf nibblePath pathLength) =
      NodeType.toNat .Leaf ∧
    MerkleNode_NodeType (MerkleNode_newExtension nibblePath pathLength) =
      NodeType.toNat .Extension ∧
    MerkleNode_NodeType (MerkleNode_newBranch nibbles) =
      NodeType.toNat .Branch := by
  refine ⟨?_, ?_, ?_⟩ <;>
    simp only [MerkleNode_NodeType, MerkleNode_newLeaf, MerkleNode_newExtension,
      MerkleNode_newBranch, NodeTypeFlag, IsDirtyFlag, NodeType.toNat] <;>
    decide

/-- Byte-level heap used where a claim is about memory effects. `mem`
maps addresses to byte values; `top` is the frontier of a bump allocator:
every previously allocated buffer, in particular a caller-supplied input
buffer, lives at addresses below `top`, and `malloc` hands out fresh
addresses at `top` and above. -/
structure Heap where
  mem : Nat → Nat
  top : Nat

/-- `memcpy(dst, src, n)`: writes the `n` bytes starting at `src` onto the
`n` addresses starting at `dst`, leaving every other address unchanged. -/
def Heap.memcpy (h : Heap) (dst src n : Nat) : Heap :=
  ⟨fun a => if dst ≤ a ∧ a < dst + n then h.mem (src + (a - dst)) else h.mem a,
   h.top⟩

/-- `malloc(n)`: returns a pointer to `n` fresh bytes at the current
frontier. -/
def Heap.malloc (h : Heap) (n : Nat) : Nat × Heap :=
  (h.top, ⟨h.mem, h.top + n⟩)

/-- Pointer-level view of `struct MerkleNode`: the struct itself is a C
value (returned by value, `Keccak` is an inline array written by
`memset`), while `Data` is a pointer into the heap. -/
structure MerkleNodeRef where
  Header : Nat
  Keccak : List Nat
  Length : Nat
  Data : Nat

/-- `MerkleNode_newLeaf` with the heap explicit: `malloc(Length)` then
`memcpy(Data, nibblePath, Length)` are the only heap effects; the struct's
own fields, including the memset of `Keccak`, are writes to the local
value, not the heap. -/
def MerkleNode_newLeaf_mem (h : Heap) (nibblePath pathLength : Nat) :
    MerkleNodeRef × Heap :=
  let len := pathLength % 256
  let alloc := h.malloc len
  (⟨((NodeType.toNat .Leaf <<< 1) ||| IsDirtyFlag) % 256,
    List.replicate 32 0, len, alloc.1⟩,
   alloc.2.memcpy alloc.1 nibblePath len)

/-- `MerkleNode_newExtension` with the heap explicit. -/
def MerkleNode_newExtension_mem (h : Heap) (nibblePath pathLength : Nat) :
    MerkleNodeRef × Heap :=
  let len := pathLength % 256
  let alloc := h.malloc len
  (⟨((NodeType.toNat .Extension <<< 1) ||| IsDirtyFlag) % 256,
    List.replicate 32 0, len, alloc.1⟩,
   alloc.2.memcpy alloc.1 nibblePath len)

/-- `MerkleNode_newBranch` with the heap explicit: `Length` is the
constant 2. -/
def MerkleNode_newBranch_mem (h : Heap) (nibbles : Nat) :
    MerkleNodeRef × Heap :=
  let alloc := h.malloc 2
  (⟨((NodeType.toNat .Branch <<< 1) ||| IsDirtyFlag) % 256,
    List.replicate 32 0, 2, alloc.1⟩,
   alloc.2.memcpy alloc.1 nibbles 2)

/-- C10: every constructor memsets the full 32-byte `Keccak` field to
zero (including `MerkleNode_newExtension`, although the struct comment
says extensions do not want a cached Keccak), and no constructor writes
to any previously allocated address: every byte below the allocation
frontier — in particular the caller-supplied input buffer — is unchanged,
because the only heap write is the `memcpy` into the freshly malloc-ed
payload buffer. -/
theorem constructors_zero_keccak_and_preserve_input :
    (∀ (p b : List Nat) (n : Nat),
      (MerkleNode_newLeaf p n).Keccak = List.replicate 32 0 ∧
      (MerkleNode_newExtension p n).Keccak = List.replicate 32 0 ∧
      (MerkleNode_newBranch b).Keccak = List.replicate 32 0) ∧
    (∀ (h : Heap) (src n a : Nat), a < h.top →
      (MerkleNode_newLeaf_mem h src n).2.mem a = h.mem a ∧
      (MerkleNode_newExtension_mem h src n).2.mem a = h.mem a ∧
      (MerkleNode_newBranch_mem h src).2.mem a = h.mem a) := by
  refine ⟨fun p b n => ⟨rfl, rfl, rfl⟩, ?_⟩
  intro h src n a ha
  refine ⟨?_, ?_, ?_⟩ <;>
    simp only [MerkleNode_newLeaf_mem, MerkleNode_newExtension_mem,
      MerkleNode_newBranch_mem, Heap.malloc, Heap.memcpy] <;>
    rw [if_neg (by omega)]

/-- Witness for `constructors_zero_keccak_and_preserve_input` on a
concrete heap of five allocated bytes, read back at address 3. -/
theorem constructors_preserve_input_witness :
    3 < (Heap.mk (fun _ => 9) 5).top ∧
    ((MerkleNode_newLeaf_mem ⟨fun _ => 9, 5⟩ 0 4).2.mem 3 =
        (Heap.mk (fun _ => 9) 5).mem 3 ∧
      (MerkleNode_newExtension_mem ⟨fun _ => 9, 5⟩ 0 4).2.mem 3 =
        (Heap.mk (fun _ => 9) 5).mem 3 ∧
      (MerkleNode_newBranch_mem ⟨fun _ => 9, 5⟩ 0).2.mem 3 =
        (Heap.mk (fun _ => 9) 5).mem 3) :=
  ⟨by decide,
   constructors_zero_keccak_and_preserve_input.2 ⟨fun _ => 9, 5⟩ 0 4 3
     (by decide)⟩

end Paprika
